import Mathlib

set_option maxHeartbeats 1000000

namespace AdsScraper

/-!
Shallow embedding of the Google Ads Transparency scraper
(`scraper.py`: `scrape_ads_count` and `process_csv`).

A rendered page is modelled by the observations the classification code
makes of it; results are the exact strings the Python code returns; the
orchestration loop of `process_csv` is modelled as an event trace plus the
list of per-row outcomes.
-/

/-- Observable state of one rendered page, as inspected by the scraper:
`navError = some e` means `page.goto` raises with message `e`;
`countText = some t` means the `.ads-count-searchable` locator becomes
visible with inner text `t` (`none`: the visibility wait times out);
`noAdsFoundCount` is `page.get_by_text("No ads found").count()`;
`title` is `page.title()`. -/
structure PageState where
  navError : Option String
  countText : Option String
  noAdsFoundCount : Nat
  title : String
  deriving DecidableEq, Repr

/-- `pre` is a prefix of `s`, on the underlying character lists
(Python `s.startswith(pre)`). -/
def strStartsWith (s pre : String) : Bool :=
  pre.data.isPrefixOf s.data

/-- Python substring test `pat in hay`. -/
def containsSub (hay pat : String) : Bool :=
  (List.range (hay.data.length + 1)).any
    (fun i => pat.data.isPrefixOf (hay.data.drop i))

/-- `scrape_ads_count(page, url)` (scraper.py lines 8-43): the single-shot
extractor. Navigation failure yields `"Error loading page: ..."`; a visible
count element yields `"no ads"` for trimmed text `"0 ads"` and the trimmed
text otherwise; the fallbacks check the `"No ads found"` text node, then the
title for `"Google Ads"` (returning `"no ads"`), else
`"Error: Element not found"`. -/
def scrape_ads_count (page : PageState) : String :=
  match page.navError with
  | some e => "Error loading page: " ++ e
  | none =>
    match page.countText with
    | some raw =>
      if raw.trim = "0 ads" then "no ads" else raw.trim
    | none =>
      if 0 < page.noAdsFoundCount then "no ads"
      else if containsSub page.title "Google Ads" then "no ads"
      else "Error: Element not found"

/-- One attempt of the retry loop inside `process_csv` (scraper.py lines
100-136): same detection order, but the title fallback yields
`"Error: Element not found (Timeout)"` and the final fallback
`"Error: Page load failed"`; a navigation failure yields `"Error: ..."`. -/
def attemptResult (page : PageState) : String :=
  match page.navError with
  | some e => "Error: " ++ e
  | none =>
    match page.countText with
    | some raw =>
      if raw.trim = "0 ads" then "no ads" else raw.trim
    | none =>
      if 0 < page.noAdsFoundCount then "no ads"
      else if containsSub page.title "Google Ads" then "Error: Element not found (Timeout)"
      else "Error: Page load failed"

/-- Whether an attempt executes a `break` of the retry loop: the count
element became visible, or the `"No ads found"` text node was present
(both after successful navigation). -/
def attemptSucceeds (page : PageState) : Bool :=
  page.navError.isNone && (page.countText.isSome || decide (0 < page.noAdsFoundCount))

/-- Observable actions taken by `process_csv`, in order. -/
inductive Event where
  | acquireBrowser
  | releaseBrowser
  | progress (current total : Nat) (message : String)
  | openPage
  | closePage
  | sleep (units : Nat)
  | record (outcome : String)
  deriving DecidableEq, Repr

/-- One input row: `url = none` models a missing value (pandas NaN). -/
structure Row where
  url : Option String
  deriving DecidableEq, Repr

/-- Python `str(url)` where `none` prints as `"nan"`. -/
def strUrl : Option String → String
  | none => "nan"
  | some u => u

/-- The validity test of scraper.py line 91:
`not (pd.isna(url) or not str(url).startswith("http"))`. -/
def validUrl (url : Option String) : Bool :=
  match url with
  | none => false
  | some u => strStartsWith u "http"

/-- `max_retries = 3` (scraper.py line 96). -/
def max_retries : Nat := 3

/-- The body of `for attempt in range(max_retries)` (scraper.py lines
99-140), over the remaining attempt indices; each attempt opens a page,
classifies, closes the page in `finally`, and on a non-break attempt that
is not the last sleeps 2 time units before retrying. Returns the events,
the final value of `result`, and the number of attempts made. -/
def retryAux (pages : Nat → PageState) : String → List Nat → List Event × String × Nat
  | result, [] => ([], result, 0)
  | _, attempt :: rest =>
    let r := attemptResult (pages attempt)
    if attemptSucceeds (pages attempt) then
      ([Event.openPage, Event.closePage], r, 1)
    else if rest.isEmpty then
      ([Event.openPage, Event.closePage], r, 1)
    else
      let t := retryAux pages r rest
      (Event.openPage :: Event.closePage :: Event.sleep 2 :: t.1, t.2.1, t.2.2 + 1)

/-- The whole retry loop of one valid row: `result` starts as
`"Error: Element not found"` (scraper.py line 97) and the loop runs over
`range(max_retries)`. -/
def retryLoop (pages : Nat → PageState) : List Event × String × Nat :=
  retryAux pages "Error: Element not found" (List.range max_retries)

/-- Index of the first succeeding attempt, if any attempt in range succeeds. -/
def firstSuccessIdx (pages : Nat → PageState) : Option Nat :=
  (List.range max_retries).find? (fun i => attemptSucceeds (pages i))

/-- The per-row progress message of scraper.py line 89. -/
def procMsg (idx n : Nat) (url : Option String) : String :=
  "Processing " ++ toString (idx + 1) ++ "/" ++ toString n ++ ": "
    ++ (strUrl url).take 50 ++ "..."

/-- Processing of one row (scraper.py lines 86-145): the progress callback
fires first; an invalid URL is recorded immediately and the loop continues;
otherwise the retry loop runs, its result is recorded, and the polite
1-unit delay follows. Returns the row events and the appended outcome. -/
def rowEvents (n idx : Nat) (row : Row) (pages : Nat → PageState) : List Event × String :=
  let pe := Event.progress (idx + 1) n (procMsg idx n row.url)
  if validUrl row.url then
    let t := retryLoop pages
    (pe :: t.1 ++ [Event.record t.2.1, Event.sleep 1], t.2.1)
  else
    ([pe, Event.record "Invalid URL"], "Invalid URL")

/-- The row loop of `process_csv`, from row index `idx` on. -/
def processRows (n : Nat) (pages : Nat → Nat → PageState) : Nat → List Row → List Event × List String
  | _, [] => ([], [])
  | idx, row :: rest =>
    let t := rowEvents n idx row (pages idx)
    let u := processRows n pages (idx + 1) rest
    (t.1 ++ u.1, t.2 :: u.2)

/-- The initial progress message of scraper.py line 74. -/
def startMsg (n : Nat) (urlCol : String) : String :=
  "Found " ++ toString n ++ " rows. Using column \x27" ++ urlCol ++ "\x27..."

/-- The final progress message of scraper.py line 154. -/
def doneMsg (outputPath : String) : String :=
  "Done! Saved to " ++ outputPath

/-- `process_csv` (scraper.py lines 45-156), after the collaborator has
detected the URL column: initial progress call with current 0, browser
launch, the row loop, browser close, and the final progress call after the
output is written. `pages r a` is the page state the `a`-th attempt of row
`r` observes. Returns the event trace and `extracted_counts`. -/
def process_csv (urlCol outputPath : String) (rows : List Row)
    (pages : Nat → Nat → PageState) : List Event × List String :=
  let n := rows.length
  let t := processRows n pages 0 rows
  (Event.progress 0 n (startMsg n urlCol) :: Event.acquireBrowser :: t.1
     ++ [Event.releaseBrowser, Event.progress n n (doneMsg outputPath)], t.2)

/-- Number of `openPage` events. -/
def countOpens : List Event → Nat
  | [] => 0
  | Event.openPage :: rest => countOpens rest + 1
  | _ :: rest => countOpens rest

/-- Number of `sleep u` events. -/
def countSleeps (u : Nat) : List Event → Nat
  | [] => 0
  | Event.sleep v :: rest => (if v = u then 1 else 0) + countSleeps u rest
  | _ :: rest => countSleeps u rest

/-- Number of `acquireBrowser` events. -/
def countAcquires : List Event → Nat
  | [] => 0
  | Event.acquireBrowser :: rest => countAcquires rest + 1
  | _ :: rest => countAcquires rest

/-- Number of `releaseBrowser` events. -/
def countReleases : List Event → Nat
  | [] => 0
  | Event.releaseBrowser :: rest => countReleases rest + 1
  | _ :: rest => countReleases rest

/-- The `current` arguments of the progress events, in trace order. -/
def progressCurrents : List Event → List Nat
  | [] => []
  | Event.progress c _ _ :: rest => c :: progressCurrents rest
  | _ :: rest => progressCurrents rest

/-- Scans a trace tracking whether a page is open; `none` means a page was
opened while one was open, or closed while none was. -/
def pageScan : List Event → Bool → Option Bool
  | [], opened => some opened
  | Event.openPage :: rest, opened => if opened then none else pageScan rest true
  | Event.closePage :: rest, opened => if opened then pageScan rest false else none
  | _ :: rest, opened => pageScan rest opened

/-- A result string is an error marker when it starts with `"Error"`. -/
def isErrorStr (s : String) : Bool :=
  strStartsWith s "Error"

/-- A data frame, as the order-preserving list of its named columns. -/
structure Table where
  cols : List (String × List String)
  deriving DecidableEq, Repr

/-- Column lookup, `df[name]`. -/
def getCol (t : Table) (name : String) : Option (List String) :=
  (t.cols.find? (fun c => c.fst == name)).map (fun c => c.snd)

/-- Column assignment, `df[name] = vals`: a pandas assignment overwrites the
column in place when present and appends a new last column otherwise. -/
def setCol (t : Table) (name : String) (vals : List String) : Table :=
  if t.cols.any (fun c => c.fst == name) then
    ⟨t.cols.map (fun c => if c.fst == name then (name, vals) else c)⟩
  else
    ⟨t.cols ++ [(name, vals)]⟩

/-- Number of rows of the frame. -/
def numRows (t : Table) : Nat :=
  match t.cols with
  | [] => 0
  | c :: _ => c.snd.length

/-- The output column name of scraper.py lines 77 and 149. -/
def adsCol : String := "number of ads"

/-- The frame effect of `process_csv` on the table (scraper.py lines 77-78
and 149): if `"number of ads"` is not a column it is first created filled
with empty strings, and at the end the column is assigned the extracted
outcomes. -/
def outputTable (input : Table) (outcomes : List String) : Table :=
  let df :=
    if input.cols.any (fun c => c.fst == adsCol) then input
    else setCol input adsCol (List.replicate (numRows input) "")
  setCol df adsCol outcomes

/-! ## Theorems -/

/-- Claim C7: whenever the ad-count element becomes visible, both the
single-shot extractor and the batch-attempt classification return the
no-ads sentinel exactly when the trimmed element text equals `"0 ads"`,
and the trimmed text itself otherwise. -/
theorem visible_count_classification (pg : PageState) (raw : String)
    (h1 : pg.navError = none) (h2 : pg.countText = some raw) :
    scrape_ads_count pg = (if raw.trim = "0 ads" then "no ads" else raw.trim)
    ∧ attemptResult pg = (if raw.trim = "0 ads" then "no ads" else raw.trim) := by
  unfold scrape_ads_count attemptResult
  rw [h1, h2]
  exact ⟨rfl, rfl⟩

/-- Witness for `visible_count_classification` at a concrete page whose
element text trims to the zero-count phrase. -/
theorem visible_count_classification_witness :
    scrape_ads_count ⟨none, some "  0 ads  ", 0, "t"⟩
        = (if ("  0 ads  " : String).trim = "0 ads" then "no ads"
           else ("  0 ads  " : String).trim)
    ∧ attemptResult ⟨none, some "  0 ads  ", 0, "t"⟩
        = (if ("  0 ads  " : String).trim = "0 ads" then "no ads"
           else ("  0 ads  " : String).trim) :=
  visible_count_classification ⟨none, some "  0 ads  ", 0, "t"⟩ "  0 ads  " rfl rfl

/-- Claim C4 counterexample: on a page with no visible count element, no
`"No ads found"` text, and a title containing `"Google Ads"`, the
single-shot extractor `scrape_ads_count` returns the `"no ads"` sentinel,
not an error marker — contradicting the claim that it returns
`Error(ElementNotFound, ...)`. -/
theorem title_fallback_single_shot_cex :
    scrape_ads_count ⟨none, none, 0, "Google Ads Transparency Center"⟩ = "no ads"
    ∧ isErrorStr (scrape_ads_count ⟨none, none, 0, "Google Ads Transparency Center"⟩)
        = false := by
  exact ⟨by decide, by decide⟩

/-- Claim C4 (amended): on a page where neither the count element nor the
`"No ads found"` text is present but the title contains `"Google Ads"`,
the single-shot extractor returns the `"no ads"` sentinel, while the
batch-attempt classification returns the element-not-found error. -/
theorem title_fallback_amended (pg : PageState)
    (h1 : pg.navError = none) (h2 : pg.countText = none)
    (h3 : pg.noAdsFoundCount = 0)
    (h4 : containsSub pg.title "Google Ads" = true) :
    scrape_ads_count pg = "no ads"
    ∧ attemptResult pg = "Error: Element not found (Timeout)" := by
  unfold scrape_ads_count attemptResult
  rw [h1, h2, h3, h4]
  simp

/-- Witness for `title_fallback_amended` at a concrete page state. -/
theorem title_fallback_amended_witness :
    scrape_ads_count ⟨none, none, 0, "Google Ads Transparency Centre"⟩ = "no ads"
    ∧ attemptResult ⟨none, none, 0, "Google Ads Transparency Centre"⟩
        = "Error: Element not found (Timeout)" :=
  title_fallback_amended ⟨none, none, 0, "Google Ads Transparency Centre"⟩
    rfl rfl rfl (by decide)

/-- Claim C5 counterexample: on a page whose navigation fails with message
`"net::ERR_TIMEOUT"`, the batch-attempt classification returns
`"Error: net::ERR_TIMEOUT"` while the single-shot extractor returns
`"Error loading page: net::ERR_TIMEOUT"` — the two call sites do not
return the same result for the same page state. -/
theorem attempt_vs_single_shot_cex :
    ¬ attemptResult ⟨some "net::ERR_TIMEOUT", none, 0, ""⟩
        = scrape_ads_count ⟨some "net::ERR_TIMEOUT", none, 0, ""⟩ := by
  decide

/-- Claim C5 (amended): the batch-attempt classification agrees with the
single-shot extractor exactly on succeeding attempts — whenever the count
element becomes visible or the `"No ads found"` text is present after a
successful navigation, the two return the same result; the error paths
differ in message and classification. -/
theorem attempt_agrees_on_success (pg : PageState)
    (h : attemptSucceeds pg = true) :
    attemptResult pg = scrape_ads_count pg := by
  unfold attemptSucceeds at h
  unfold attemptResult scrape_ads_count
  cases hn : pg.navError with
  | some e => rw [hn] at h; simp at h
  | none =>
    cases hc : pg.countText with
    | some raw => rfl
    | none =>
      rw [hn, hc] at h
      simp at h
      simp [h]

/-- Witness for `attempt_agrees_on_success` at a concrete page exposing
the `"No ads found"` text node. -/
theorem attempt_agrees_on_success_witness :
    attemptResult ⟨none, none, 5, "t"⟩ = scrape_ads_count ⟨none, none, 5, "t"⟩ :=
  attempt_agrees_on_success ⟨none, none, 5, "t"⟩ rfl

theorem countOpens_append (a b : List Event) :
    countOpens (a ++ b) = countOpens a + countOpens b := by
  induction a with
  | nil => simp [countOpens]
  | cons e rest ih => cases e <;> simp [countOpens, ih] <;> omega

theorem countSleeps_append (u : Nat) (a b : List Event) :
    countSleeps u (a ++ b) = countSleeps u a + countSleeps u b := by
  induction a with
  | nil => simp [countSleeps]
  | cons e rest ih => cases e <;> simp [countSleeps, ih] <;> omega

theorem countAcquires_append (a b : List Event) :
    countAcquires (a ++ b) = countAcquires a + countAcquires b := by
  induction a with
  | nil => simp [countAcquires]
  | cons e rest ih => cases e <;> simp [countAcquires, ih] <;> omega

theorem countReleases_append (a b : List Event) :
    countReleases (a ++ b) = countReleases a + countReleases b := by
  induction a with
  | nil => simp [countReleases]
  | cons e rest ih => cases e <;> simp [countReleases, ih] <;> omega

theorem progressCurrents_append (a b : List Event) :
    progressCurrents (a ++ b) = progressCurrents a ++ progressCurrents b := by
  induction a with
  | nil => simp [progressCurrents]
  | cons e rest ih => cases e <;> simp [progressCurrents, ih]

/-- Claim C1: for a row with a valid URL, the outcome recorded by the row
loop is the final result of the retry loop; the number of attempts is one
more than the index of the first succeeding attempt, or `max_retries` when
all attempts fail; the final result is the classification of the last
attempt;
exactly one page is opened per attempt; the 2-unit inter-attempt delay
occurs exactly `attempts - 1` times; and the retry loop never ends on a
delay (its last event is the page close of the final attempt). -/
theorem retry_policy (n idx : Nat) (row : Row) (pages : Nat → PageState)
    (h : validUrl row.url = true) :
    (rowEvents n idx row pages).2 = (retryLoop pages).2.1
    ∧ (retryLoop pages).2.2
        = (match firstSuccessIdx pages with
           | some i => i + 1
           | none => max_retries)
    ∧ (retryLoop pages).2.1 = attemptResult (pages ((retryLoop pages).2.2 - 1))
    ∧ countOpens (rowEvents n idx row pages).1 = (retryLoop pages).2.2
    ∧ countSleeps 2 (rowEvents n idx row pages).1 = (retryLoop pages).2.2 - 1
    ∧ (retryLoop pages).1.getLast? = some Event.closePage := by
  have hr : List.range max_retries = [0, 1, 2] := rfl
  cases h0 : attemptSucceeds (pages 0) <;>
    cases h1 : attemptSucceeds (pages 1) <;>
      cases h2 : attemptSucceeds (pages 2) <;>
        simp [rowEvents, retryLoop, retryAux, firstSuccessIdx, hr, h, h0, h1, h2,
          countOpens, countSleeps, countOpens_append, countSleeps_append,
          List.find?, max_retries]

/-- Witness for `retry_policy`: a row whose every attempt fails navigation
makes 3 attempts with 2 inter-attempt delays, and the delays count is
attempts minus one. -/
theorem retry_policy_witness :
    countOpens (rowEvents 1 0 ⟨some "http://a"⟩
        (fun _ => ⟨some "net::ERR_CONNECTION_RESET", none, 0, ""⟩)).1
      = (retryLoop (fun _ => ⟨some "net::ERR_CONNECTION_RESET", none, 0, ""⟩)).2.2
    ∧ countSleeps 2 (rowEvents 1 0 ⟨some "http://a"⟩
        (fun _ => ⟨some "net::ERR_CONNECTION_RESET", none, 0, ""⟩)).1
      = (retryLoop (fun _ => ⟨some "net::ERR_CONNECTION_RESET", none, 0, ""⟩)).2.2 - 1 :=
  ⟨(retry_policy 1 0 ⟨some "http://a"⟩
      (fun _ => ⟨some "net::ERR_CONNECTION_RESET", none, 0, ""⟩) (by decide)).2.2.2.1,
   (retry_policy 1 0 ⟨some "http://a"⟩
      (fun _ => ⟨some "net::ERR_CONNECTION_RESET", none, 0, ""⟩) (by decide)).2.2.2.2.1⟩

/-- Claim C3: a row whose URL is missing or does not start with the HTTP
scheme marker is recorded as `"Invalid URL"`, opens no page, incurs no
retry delay, and still produces its progress call. -/
theorem invalid_url_row (n idx : Nat) (row : Row) (pages : Nat → PageState)
    (h : validUrl row.url = false) :
    (rowEvents n idx row pages).2 = "Invalid URL"
    ∧ countOpens (rowEvents n idx row pages).1 = 0
    ∧ countSleeps 2 (rowEvents n idx row pages).1 = 0
    ∧ progressCurrents (rowEvents n idx row pages).1 = [idx + 1] := by
  simp [rowEvents, h, countOpens, countSleeps, progressCurrents]

/-- Witness for `invalid_url_row` at a concrete row with an empty URL. -/
theorem invalid_url_row_witness :
    (rowEvents 2 1 ⟨some ""⟩ (fun _ => ⟨none, none, 0, ""⟩)).2 = "Invalid URL"
    ∧ countOpens (rowEvents 2 1 ⟨some ""⟩ (fun _ => ⟨none, none, 0, ""⟩)).1 = 0
    ∧ countSleeps 2 (rowEvents 2 1 ⟨some ""⟩ (fun _ => ⟨none, none, 0, ""⟩)).1 = 0
    ∧ progressCurrents (rowEvents 2 1 ⟨some ""⟩ (fun _ => ⟨none, none, 0, ""⟩)).1
        = [2] :=
  invalid_url_row 2 1 ⟨some ""⟩ (fun _ => ⟨none, none, 0, ""⟩) (by decide)

theorem countSleeps_one_retryAux (pages : Nat → PageState) :
    ∀ (l : List Nat) (r : String), countSleeps 1 (retryAux pages r l).1 = 0 := by
  intro l
  induction l with
  | nil => intro r; rfl
  | cons a rest ih =>
    intro r
    unfold retryAux
    by_cases hs : attemptSucceeds (pages a)
    · simp [hs, countSleeps]
    · by_cases he : rest.isEmpty
      · simp [hs, he, countSleeps]
      · simp [hs, he, countSleeps, ih]

/-- Claim C9: the 1-unit polite inter-row delay is incurred exactly by the
rows that went through the extraction retry loop — a valid-URL row sleeps
it once, an invalid-URL row never does. -/
theorem polite_delay_only_extracted (n idx : Nat) (row : Row)
    (pages : Nat → PageState) :
    countSleeps 1 (rowEvents n idx row pages).1
      = (if validUrl row.url then 1 else 0) := by
  by_cases h : validUrl row.url
  · simp [rowEvents, h, countSleeps, countSleeps_append, retryLoop,
      countSleeps_one_retryAux]
  · simp [rowEvents, h, countSleeps]

theorem processRows_length (n : Nat) (pages : Nat → Nat → PageState) :
    ∀ (rows : List Row) (j : Nat),
      (processRows n pages j rows).2.length = rows.length := by
  intro rows
  induction rows with
  | nil => intro j; rfl
  | cons row rest ih => intro j; simp [processRows, ih]

theorem processRows_get (n : Nat) (pages : Nat → Nat → PageState) :
    ∀ (rows : List Row) (j i : Nat),
      (processRows n pages j rows).2[i]?
        = (rows[i]?).map (fun row => (rowEvents n (j + i) row (pages (j + i))).2) := by
  intro rows
  induction rows with
  | nil => intro j i; simp [processRows]
  | cons row rest ih =>
    intro j i
    cases i with
    | zero => simp [processRows]
    | succ k =>
      have hjk : j + 1 + k = j + (k + 1) := by omega
      simp only [processRows, List.getElem?_cons_succ]
      rw [ih (j + 1) k, hjk]

/-- Claim C2: the batch produces exactly one outcome per input row — the
outcome list has the length of the input and its `i`-th entry is the
outcome of processing the `i`-th input row. -/
theorem batch_alignment (urlCol outputPath : String) (rows : List Row)
    (pages : Nat → Nat → PageState) :
    (process_csv urlCol outputPath rows pages).2.length = rows.length
    ∧ ∀ i : Nat,
        (process_csv urlCol outputPath rows pages).2[i]?
          = (rows[i]?).map (fun row => (rowEvents rows.length i row (pages i)).2) := by
  constructor
  · simpa [process_csv] using processRows_length rows.length pages rows 0
  · intro i
    simpa [process_csv] using processRows_get rows.length pages rows 0 i

theorem progressCurrents_retryAux (pages : Nat → PageState) :
    ∀ (l : List Nat) (r : String), progressCurrents (retryAux pages r l).1 = [] := by
  intro l
  induction l with
  | nil => intro r; rfl
  | cons a rest ih =>
    intro r
    unfold retryAux
    by_cases hs : attemptSucceeds (pages a)
    · simp [hs, progressCurrents]
    · by_cases he : rest.isEmpty
      · simp [hs, he, progressCurrents]
      · simp [hs, he, progressCurrents, ih]

theorem progressCurrents_rowEvents (n idx : Nat) (row : Row)
    (pages : Nat → PageState) :
    progressCurrents (rowEvents n idx row pages).1 = [idx + 1] := by
  by_cases h : validUrl row.url
  · simp [rowEvents, h, progressCurrents, progressCurrents_append, retryLoop,
      progressCurrents_retryAux]
  · simp [rowEvents, h, progressCurrents]

theorem progressCurrents_processRows (n : Nat) (pages : Nat → Nat → PageState) :
    ∀ (rows : List Row) (j : Nat),
      progressCurrents (processRows n pages j rows).1
        = (List.range rows.length).map (fun k => j + k + 1) := by
  intro rows
  induction rows with
  | nil => intro j; rfl
  | cons row rest ih =>
    intro j
    simp only [processRows, progressCurrents_append, progressCurrents_rowEvents,
      ih (j + 1), List.length_cons, List.range_succ_eq_map, List.map_cons,
      List.map_map, List.cons_append, List.nil_append]
    congr 1
    apply List.map_congr_left
    intro a _
    simp only [Function.comp_apply]
    omega

/-- Claim C6 (amended): over a batch of `n` rows, the trace of progress
`current` values is exactly `0, 1, 2, ..., n, n` — one initial call with
`current = 0`, then one call per row with strictly increasing values `1`
to `n`, each fired at the head of the events of its row (before the attempt
loop and before the outcome is recorded), and one final call with
`current = n` after the output is written: `n + 2` calls in total, not
`n + 1`. -/
theorem progress_schedule (urlCol outputPath : String) (rows : List Row)
    (pages : Nat → Nat → PageState) :
    progressCurrents (process_csv urlCol outputPath rows pages).1
      = 0 :: ((List.range rows.length).map (fun k => k + 1) ++ [rows.length])
    ∧ ∀ (n idx : Nat) (row : Row) (pg : Nat → PageState),
        (rowEvents n idx row pg).1.head?
          = some (Event.progress (idx + 1) n (procMsg idx n row.url)) := by
  constructor
  · simp [process_csv, progressCurrents, progressCurrents_append,
      progressCurrents_processRows rows.length pages rows 0]
  · intro n idx row pg
    by_cases h : validUrl row.url
    · simp [rowEvents, h]
    · simp [rowEvents, h]

/-- Claim C6 counterexample: on a one-row batch the progress callback is
invoked 3 times (start, the row, and the final call after writing), not
`n + 1 = 2` times as the claim states. -/
theorem progress_count_cex :
    (progressCurrents (process_csv "url" "out.csv" [⟨some "http://a"⟩]
        (fun _ _ => ⟨none, some "7 ads", 0, "Google Ads"⟩)).1).length = 3 := by
  rfl

theorem pageScan_append (a b : List Event) :
    ∀ s : Bool, pageScan (a ++ b) s
      = (pageScan a s).bind (fun s2 => pageScan b s2) := by
  induction a with
  | nil => intro s; simp [pageScan]
  | cons e rest ih => intro s; cases e <;> cases s <;> simp [pageScan, ih]

theorem pageScan_retryAux (pages : Nat → PageState) :
    ∀ (l : List Nat) (r : String),
      pageScan (retryAux pages r l).1 false = some false := by
  intro l
  induction l with
  | nil => intro r; rfl
  | cons a rest ih =>
    intro r
    unfold retryAux
    by_cases hs : attemptSucceeds (pages a)
    · simp [hs, pageScan]
    · by_cases he : rest.isEmpty
      · simp [hs, he, pageScan]
      · simp [hs, he, pageScan, ih]

theorem pageScan_rowEvents (n idx : Nat) (row : Row) (pages : Nat → PageState) :
    pageScan (rowEvents n idx row pages).1 false = some false := by
  by_cases h : validUrl row.url
  · simp [rowEvents, h, pageScan, pageScan_append, retryLoop, pageScan_retryAux]
  · simp [rowEvents, h, pageScan]

theorem pageScan_processRows (n : Nat) (pages : Nat → Nat → PageState) :
    ∀ (rows : List Row) (j : Nat),
      pageScan (processRows n pages j rows).1 false = some false := by
  intro rows
  induction rows with
  | nil => intro j; rfl
  | cons row rest ih =>
    intro j
    simp [processRows, pageScan_append, pageScan_rowEvents, ih (j + 1)]

theorem countAcquires_retryAux (pages : Nat → PageState) :
    ∀ (l : List Nat) (r : String), countAcquires (retryAux pages r l).1 = 0 := by
  intro l
  induction l with
  | nil => intro r; rfl
  | cons a rest ih =>
    intro r
    unfold retryAux
    by_cases hs : attemptSucceeds (pages a)
    · simp [hs, countAcquires]
    · by_cases he : rest.isEmpty
      · simp [hs, he, countAcquires]
      · simp [hs, he, countAcquires, ih]

theorem countReleases_retryAux (pages : Nat → PageState) :
    ∀ (l : List Nat) (r : String), countReleases (retryAux pages r l).1 = 0 := by
  intro l
  induction l with
  | nil => intro r; rfl
  | cons a rest ih =>
    intro r
    unfold retryAux
    by_cases hs : attemptSucceeds (pages a)
    · simp [hs, countReleases]
    · by_cases he : rest.isEmpty
      · simp [hs, he, countReleases]
      · simp [hs, he, countReleases, ih]

theorem countAcquires_processRows (n : Nat) (pages : Nat → Nat → PageState) :
    ∀ (rows : List Row) (j : Nat),
      countAcquires (processRows n pages j rows).1 = 0 := by
  intro rows
  induction rows with
  | nil => intro j; rfl
  | cons row rest ih =>
    intro j
    by_cases h : validUrl row.url <;>
      simp [processRows, countAcquires_append, rowEvents, h, countAcquires,
        retryLoop, countAcquires_retryAux, ih (j + 1)]

theorem countReleases_processRows (n : Nat) (pages : Nat → Nat → PageState) :
    ∀ (rows : List Row) (j : Nat),
      countReleases (processRows n pages j rows).1 = 0 := by
  intro rows
  induction rows with
  | nil => intro j; rfl
  | cons row rest ih =>
    intro j
    by_cases h : validUrl row.url <;>
      simp [processRows, countReleases_append, rowEvents, h, countReleases,
        retryLoop, countReleases_retryAux, ih (j + 1)]

/-- Claim C8: the trace of a batch starts with the initial progress call
and a single browser acquisition, ends with a single browser release
followed by the final progress call, with no acquisition or release among
the row events — and the page-open/page-close discipline is balanced with
at most one page open at any point and no page open at the end. -/
theorem session_lifecycle (urlCol outputPath : String) (rows : List Row)
    (pages : Nat → Nat → PageState) :
    (process_csv urlCol outputPath rows pages).1
      = Event.progress 0 rows.length (startMsg rows.length urlCol)
          :: Event.acquireBrowser :: (processRows rows.length pages 0 rows).1
          ++ [Event.releaseBrowser,
              Event.progress rows.length rows.length (doneMsg outputPath)]
    ∧ countAcquires (process_csv urlCol outputPath rows pages).1 = 1
    ∧ countReleases (process_csv urlCol outputPath rows pages).1 = 1
    ∧ countAcquires (processRows rows.length pages 0 rows).1 = 0
    ∧ countReleases (processRows rows.length pages 0 rows).1 = 0
    ∧ pageScan (process_csv urlCol outputPath rows pages).1 false = some false := by
  refine ⟨rfl, ?_, ?_, ?_, ?_, ?_⟩
  · simp [process_csv, countAcquires, countAcquires_append,
      countAcquires_processRows rows.length pages rows 0]
  · simp [process_csv, countReleases, countReleases_append,
      countReleases_processRows rows.length pages rows 0]
  · exact countAcquires_processRows rows.length pages rows 0
  · exact countReleases_processRows rows.length pages rows 0
  · simp [process_csv, pageScan, pageScan_append,
      pageScan_processRows rows.length pages rows 0]

theorem find?_overwrite_self (nm : String) (vals : List String) :
    ∀ l : List (String × List String), l.any (fun c => c.fst == nm) = true →
      (l.map (fun c => if c.fst == nm then (nm, vals) else c)).find?
          (fun c => c.fst == nm) = some (nm, vals) := by
  intro l
  induction l with
  | nil => intro h; simp at h
  | cons c rest ih =>
    intro h
    rw [List.map_cons]
    by_cases hc : c.fst = nm
    · have hf : (if c.fst == nm then (nm, vals) else c) = (nm, vals) := by
        simp [hc]
      rw [hf, List.find?_cons_of_pos _ (by simp)]
    · have hf : (if c.fst == nm then (nm, vals) else c) = c := by
        simp [hc]
      rw [hf, List.find?_cons_of_neg _ (by simp [hc])]
      apply ih
      simp only [List.any_cons, Bool.or_eq_true, beq_iff_eq] at h
      rcases h with h | h
      · exact absurd h hc
      · exact h

theorem find?_overwrite_other (nm nm2 : String) (vals : List String)
    (hne : nm2 ≠ nm) :
    ∀ l : List (String × List String),
      (l.map (fun c => if c.fst == nm then (nm, vals) else c)).find?
          (fun c => c.fst == nm2)
        = l.find? (fun c => c.fst == nm2) := by
  intro l
  induction l with
  | nil => rfl
  | cons c rest ih =>
    rw [List.map_cons]
    by_cases hc : c.fst = nm
    · have hf : (if c.fst == nm then (nm, vals) else c) = (nm, vals) := by
        simp [hc]
      have h2 : ((nm, vals).fst == nm2) = false := by
        simp only [beq_eq_false_iff_ne, ne_eq]
        exact fun hh => hne hh.symm
      have h3 : (c.fst == nm2) = false := by
        simp only [beq_eq_false_iff_ne, ne_eq, hc]
        exact fun hh => hne hh.symm
      rw [hf]
      simp only [List.find?, h2, h3]
      exact ih
    · have hf : (if c.fst == nm then (nm, vals) else c) = c := by
        simp [hc]
      rw [hf]
      simp only [List.find?]
      cases hd : (c.fst == nm2) with
      | true => rfl
      | false => exact ih

theorem map_fst_overwrite (nm : String) (vals : List String) :
    ∀ l : List (String × List String),
      (l.map (fun c => if c.fst == nm then (nm, vals) else c)).map Prod.fst
        = l.map Prod.fst := by
  intro l
  induction l with
  | nil => rfl
  | cons c rest ih =>
    simp only [List.map_cons]
    by_cases hc : c.fst = nm
    · have hf : (if c.fst == nm then (nm, vals) else c) = (nm, vals) := by
        simp [hc]
      rw [hf, ih]
      simp [hc]
    · have hf : (if c.fst == nm then (nm, vals) else c) = c := by
        simp [hc]
      rw [hf, ih]

theorem map_overwrite_of_not_any (nm : String) (vals : List String) :
    ∀ l : List (String × List String), l.any (fun c => c.fst == nm) = false →
      l.map (fun c => if c.fst == nm then (nm, vals) else c) = l := by
  intro l
  induction l with
  | nil => intro h; rfl
  | cons c rest ih =>
    intro h
    have h1 : (c.fst == nm) = false := by
      cases hcb : (c.fst == nm) with
      | false => rfl
      | true => rw [List.any_cons, hcb] at h; simp at h
    have h2 : rest.any (fun c => c.fst == nm) = false := by
      rw [List.any_cons, h1] at h
      simpa using h
    rw [List.map_cons]
    have hf : (if c.fst == nm then (nm, vals) else c) = c := by
      simp [h1]
    rw [hf, ih h2]

theorem find?_eq_none_of_not_any (nm : String) (l : List (String × List String))
    (h : l.any (fun c => c.fst == nm) = false) :
    l.find? (fun c => c.fst == nm) = none :=
  List.find?_eq_none.mpr (List.any_eq_false.mp h)

/-- Claim C10: the output table is the input table with exactly the
`"number of ads"` column set to the per-row outcomes — the column is
overwritten in place when the input already has it and appended as a new
last column otherwise, and every other column keeps its name, position
and values (so the row order and all other data are unchanged). -/
theorem output_column_frame (t : Table) (outcomes : List String) :
    getCol (outputTable t outcomes) adsCol = some outcomes
    ∧ (∀ nm : String, nm ≠ adsCol →
        getCol (outputTable t outcomes) nm = getCol t nm)
    ∧ (outputTable t outcomes).cols.map Prod.fst
        = (if t.cols.any (fun c => c.fst == adsCol) then t.cols.map Prod.fst
           else t.cols.map Prod.fst ++ [adsCol]) := by
  by_cases hany : t.cols.any (fun c => c.fst == adsCol) = true
  · refine ⟨?_, ?_, ?_⟩
    · simp only [outputTable, setCol, getCol, hany, if_true]
      rw [find?_overwrite_self adsCol outcomes t.cols hany]
      rfl
    · intro nm hne
      simp only [outputTable, setCol, getCol, hany, if_true]
      rw [find?_overwrite_other adsCol nm outcomes hne t.cols]
    · simp only [outputTable, setCol, hany, if_true]
      rw [map_fst_overwrite adsCol outcomes t.cols]
  · have hany2 : t.cols.any (fun c => c.fst == adsCol) = false :=
      Bool.eq_false_iff.mpr hany
    have hrw : outputTable t outcomes
        = ⟨t.cols ++ [(adsCol, outcomes)]⟩ := by
      simp only [outputTable, setCol, hany2, Bool.false_eq_true, if_false,
        List.any_append, List.any_cons, List.any_nil, beq_self_eq_true,
        Bool.true_or, Bool.or_true, if_true, List.map_append,
        map_overwrite_of_not_any adsCol outcomes t.cols hany2, List.map_cons,
        List.map_nil, beq_self_eq_true, if_true]
    refine ⟨?_, ?_, ?_⟩
    · rw [hrw]
      simp only [getCol, List.find?_append,
        find?_eq_none_of_not_any adsCol t.cols hany2, Option.none_or,
        List.find?_cons, beq_self_eq_true]
      rfl
    · intro nm hne
      rw [hrw]
      have h2 : ¬ (adsCol == nm) = true := by
        simp only [beq_iff_eq]
        exact fun h => hne h.symm
      simp only [getCol, List.find?_append, List.find?_cons, h2]
      cases hfind : t.cols.find? (fun c => c.fst == nm) <;>
        simp [hfind, List.find?_nil, h2]
    · rw [hrw]
      simp [hany2, List.map_append]

/-- Witness for `output_column_frame`: on a one-column input table without
a `"number of ads"` column, the output carries the outcomes under
`"number of ads"` and the `"url"` column is unchanged. -/
theorem output_column_frame_witness :
    getCol (outputTable ⟨[("url", ["http://a"])]⟩ ["7 ads"]) adsCol
        = some ["7 ads"]
    ∧ getCol (outputTable ⟨[("url", ["http://a"])]⟩ ["7 ads"]) "url"
        = getCol ⟨[("url", ["http://a"])]⟩ "url" :=
  ⟨(output_column_frame ⟨[("url", ["http://a"])]⟩ ["7 ads"]).1,
   (output_column_frame ⟨[("url", ["http://a"])]⟩ ["7 ads"]).2.1 "url" (by decide)⟩

end AdsScraper
